import Mathlib

/-!
Verification development for the memory-vault backend therapy-outline service
(`src/service/therapy_outline_service.py`).

The development shallowly embeds the service: external collaborators (memory
service, patient service, outline repository, OpenAI chat client) are explicit
function-valued parameters, Python exceptions become an explicit error type,
and the observable side effects of a run (chat-completion requests issued,
outlines handed to the repository save operation) are recorded in a trace.
-/

/-- JSON values, as produced by the Python `json` module for the fragment this
service exchanges with the model: null, booleans, integer numbers, strings,
arrays and objects.  Float literals and `\u` string escapes are outside the
modelled fragment. -/
inductive Json where
  | null
  | bool (b : Bool)
  | num (n : Int)
  | str (s : String)
  | arr (elems : List Json)
  | obj (fields : List (String × Json))
deriving Repr

/-- Characters the JSON grammar treats as insignificant whitespace. -/
def isJsonWs (c : Char) : Bool :=
  c = ' ' || c = '\n' || c = '\t' || c = '\r'

/-- Drop leading JSON whitespace. -/
def skipWs (cs : List Char) : List Char := cs.dropWhile isJsonWs

/-- Parse the body of a JSON string literal (the opening quote already
consumed), returning the decoded string and the remaining input.  Handles the
single-character escapes; `\u` escapes are outside the modelled fragment. -/
def parseStringBody : Nat → List Char → Except String (String × List Char)
  | 0, _ => .error "Unterminated string"
  | _, [] => .error "Unterminated string"
  | fuel+1, c :: rest =>
    if c = '"' then .ok ("", rest)
    else if c = '\\' then
      match rest with
      | [] => .error "Unterminated string"
      | e :: rest2 =>
        let esc : Except String Char :=
          if e = '"' then .ok '"'
          else if e = '\\' then .ok '\\'
          else if e = '/' then .ok '/'
          else if e = 'n' then .ok '\n'
          else if e = 't' then .ok '\t'
          else if e = 'r' then .ok '\r'
          else if e = 'b' then .ok (Char.ofNat 8)
          else if e = 'f' then .ok (Char.ofNat 12)
          else .error "Invalid escape"
        match esc with
        | .error msg => .error msg
        | .ok ch =>
          match parseStringBody fuel rest2 with
          | .ok (s, r) => .ok (ch.toString ++ s, r)
          | .error msg => .error msg
    else
      match parseStringBody fuel rest with
      | .ok (s, r) => .ok (c.toString ++ s, r)
      | .error msg => .error msg

/-- Numeric value of a list of decimal digit characters. -/
def digitsToNat (ds : List Char) : Nat :=
  ds.foldl (fun n c => n * 10 + (c.toNat - 48)) 0

/-- Parse a JSON number.  Only integer literals are in the modelled fragment;
a fraction or exponent part is rejected. -/
def parseNumber (cs : List Char) : Except String (Json × List Char) :=
  let (neg, cs1) :=
    match cs with
    | '-' :: rest => (true, rest)
    | _ => (false, cs)
  let digits := cs1.takeWhile Char.isDigit
  let rest := cs1.dropWhile Char.isDigit
  if digits.isEmpty then .error "Expecting value"
  else
    match rest with
    | '.' :: _ => .error "Float literal outside the modelled JSON fragment"
    | 'e' :: _ => .error "Float literal outside the modelled JSON fragment"
    | 'E' :: _ => .error "Float literal outside the modelled JSON fragment"
    | _ =>
      let n : Int := Int.ofNat (digitsToNat digits)
      .ok (.num (if neg then -n else n), rest)

/-- Does the list of characters start with the characters of `s`? -/
def litPre (s : String) (cs : List Char) : Bool := s.data.isPrefixOf cs

mutual

/-- Parse one JSON value from the input (leading whitespace allowed). -/
def parseValue : Nat → List Char → Except String (Json × List Char)
  | 0, _ => .error "Recursion limit"
  | fuel+1, cs0 =>
    let cs := skipWs cs0
    if litPre "true" cs then .ok (.bool true, cs.drop 4)
    else if litPre "false" cs then .ok (.bool false, cs.drop 5)
    else if litPre "null" cs then .ok (.null, cs.drop 4)
    else
      match cs with
      | [] => .error "Expecting value"
      | c :: rest =>
        if c = '"' then
          match parseStringBody (rest.length + 1) rest with
          | .ok (s, r) => .ok (.str s, r)
          | .error msg => .error msg
        else if c = '[' then
          match skipWs rest with
          | ']' :: r2 => .ok (.arr [], r2)
          | r1 =>
            match parseArrayRest fuel r1 with
            | .ok (vs, r2) => .ok (.arr vs, r2)
            | .error msg => .error msg
        else if c = '\x7b' then
          match skipWs rest with
          | '\x7d' :: r2 => .ok (.obj [], r2)
          | r1 =>
            match parseObjectRest fuel r1 with
            | .ok (fs, r2) => .ok (.obj fs, r2)
            | .error msg => .error msg
        else if c = '-' || c.isDigit then parseNumber cs
        else .error "Expecting value"

/-- Parse the elements of a non-empty JSON array, up to and including the
closing bracket. -/
def parseArrayRest : Nat → List Char → Except String (List Json × List Char)
  | 0, _ => .error "Recursion limit"
  | fuel+1, cs =>
    match parseValue fuel cs with
    | .error msg => .error msg
    | .ok (v, r) =>
      match skipWs r with
      | ']' :: r2 => .ok ([v], r2)
      | ',' :: r2 =>
        match parseArrayRest fuel r2 with
        | .ok (vs, r3) => .ok (v :: vs, r3)
        | .error msg => .error msg
      | _ => .error "Expecting comma delimiter"

/-- Parse the members of a non-empty JSON object, up to and including the
closing brace. -/
def parseObjectRest : Nat → List Char → Except String (List (String × Json) × List Char)
  | 0, _ => .error "Recursion limit"
  | fuel+1, cs =>
    match skipWs cs with
    | '"' :: r1 =>
      match parseStringBody (r1.length + 1) r1 with
      | .error msg => .error msg
      | .ok (key, r2) =>
        match skipWs r2 with
        | ':' :: r3 =>
          match parseValue fuel r3 with
          | .error msg => .error msg
          | .ok (v, r4) =>
            match skipWs r4 with
            | '\x7d' :: r5 => .ok ([(key, v)], r5)
            | ',' :: r5 =>
              match parseObjectRest fuel r5 with
              | .ok (fs, r6) => .ok ((key, v) :: fs, r6)
              | .error msg => .error msg
            | _ => .error "Expecting comma delimiter"
        | _ => .error "Expecting colon delimiter"
    | _ => .error "Expecting property name enclosed in double quotes"

end

/-- Model of Python `json.loads` on the modelled fragment: parse a complete
JSON document and reject trailing data. -/
def Json.parse (s : String) : Except String Json :=
  match parseValue (s.length + 2) s.data with
  | .error msg => .error msg
  | .ok (v, rest) =>
    if (skipWs rest).isEmpty then .ok v else .error "Extra data"

/-- Look a key up in a parsed JSON object, with the last occurrence winning,
as in the Python `dict` built by `json.loads`. -/
def lookupDict (fields : List (String × Json)) (key : String) : Option Json :=
  (fields.filterMap (fun p => if p.1 = key then some p.2 else none)).getLast?

/-- Python exceptions the embedded service can raise or propagate.  Messages
elide Python quoting.  `stepValidationError` stands for the pydantic
validation error raised by `Step(**step)` on a malformed step mapping;
`collaboratorError` stands for an opaque exception raised inside a
collaborator (memory service, patient service, repository, OpenAI client). -/
inductive PyError where
  | valueError (msg : String)
  | attributeError (msg : String)
  | typeError (msg : String)
  | keyError (key : String)
  | indexError (msg : String)
  | stepValidationError (msg : String)
  | collaboratorError (msg : String)
deriving Repr, DecidableEq

/-- Is this error a Python `ValueError` raised by this service (the kind
`_parse_json_output` raises for undecodable model output)? -/
def PyError.isValueError : PyError → Bool
  | .valueError _ => true
  | _ => false

/-- Modelled from the spec (section 3): the narration script of a step, from
the `Script` model of `src/model`, which is not present under `src/` — voice
identifier plus narration text. -/
structure Script where
  voice : String
  text : String
deriving Repr, DecidableEq

/-- Modelled from the spec (section 3): the category tag of a step, one of
`INTRODUCTION`, `NORMAL`, `CONCLUSION`. -/
inductive StepType where
  | INTRODUCTION
  | NORMAL
  | CONCLUSION
deriving Repr, DecidableEq

/-- The fixed set of voices the spec enumerates for `script.voice`. -/
def allowedVoices : List String :=
  ["alloy", "echo", "fable", "onyx", "nova", "shimmer"]

/-- Modelled from the spec (section 3): the `Step` model of `src/model`,
which is not present under `src/` — ordinal position, description, guidance
strings, category tag, media URLs and a script. -/
structure Step where
  step : Int
  description : String
  guide : List String
  type : StepType
  media_urls : List String
  script : Script
deriving Repr, DecidableEq

/-- Modelled from the spec (section 3): the `TherapyOutline` model of
`src/model`, which is not present under `src/` — aggregate of `patient_id`,
`memory_id` and an ordered sequence of steps. -/
structure TherapyOutline where
  patient_id : String
  memory_id : String
  steps : List Step
deriving Repr, DecidableEq

/-- A memory record, as the service uses it: the `patient_id` attribute it
reads, plus the string rendering of `model_dump(by_alias=True)` that the
f-string template interpolates.  All other fields are opaque to the
service. -/
structure Memory where
  patient_id : String
  dumpStr : String
deriving Repr, DecidableEq

/-- Python truthiness of a memory record: a pydantic model instance defines
neither a bool nor a len conversion, so `if not memory` is false for every
present instance. -/
def Memory.toBool (_ : Memory) : Bool := true

/-- A patient record, as the service uses it: only the string rendering of
`model_dump(by_alias=True)` interpolated into the prompt. -/
structure Patient where
  dumpStr : String
deriving Repr, DecidableEq

/-- The `input_data` dict assembled in `generate_and_save_therapy_outline`:
the input memory id and the dump renderings of memory and patient. -/
structure InputData where
  memory_id : String
  memory_details : String
  patient_details : String
deriving Repr, DecidableEq

/-- One part of a chat message body, `\x7b"type": ..., "text": ...\x7d` in the
request payload. -/
structure ContentPart where
  type : String
  text : String
deriving Repr, DecidableEq

/-- One chat message of the request payload: a role and its content parts. -/
structure ChatMessage where
  role : String
  content : List ContentPart
deriving Repr, DecidableEq

/-- The request `_generate_therapy_outline` sends through
`openai.chat.completions.create`. -/
structure ChatRequest where
  model : String
  messages : List ChatMessage
  temperature : Rat
deriving Repr, DecidableEq

/-- The message inside one completion choice. -/
structure ChatChoiceMessage where
  content : String
deriving Repr, DecidableEq

/-- One completion choice of the API response. -/
structure ChatChoice where
  message : ChatChoiceMessage
deriving Repr, DecidableEq

/-- The chat-completion API response: a list of choices. -/
structure ChatResponse where
  choices : List ChatChoice
deriving Repr, DecidableEq

/-- The external collaborators of `TherapyOutlineService`, as functions.
`get_memory_by_id` may return `none` (a missing memory); any collaborator may
raise. -/
structure Env where
  get_memory_by_id : String → Except PyError (Option Memory)
  get_patient_by_id : String → Except PyError Patient
  chat_completions_create : ChatRequest → Except PyError ChatResponse
  save_therapy_outline : TherapyOutline → Except PyError String
  repo_get_therapy_outline_by_memory_id : String → Except PyError TherapyOutline

/-- Observable side effects of one service run: the chat-completion requests
issued and the outlines passed to the repository save operation. -/
structure Trace where
  modelCalls : List ChatRequest := []
  saves : List TherapyOutline := []
deriving Repr, DecidableEq
def promptPre : String :=
  "\n        Generate a therapy outline in the following JSON format:\n\n        \x7b\n          \"patient_id\": \"string\",\n          \"memory_id\": \"string\",\n          \"steps\": [\n            \x7b\n              \"step\": \"int\",\n              \"description\": \"string\",\n              \"guide\": [\"string\", \"...\"],\n              \"type\": \"string (INTRODUCTION, NORMAL, CONCLUSION)\",\n              \"media_urls\": [\"string\", \"...\"],\n              \"script\": \x7b\n                \"voice\": \"string (alloy, echo, fable, onyx, nova, shimmer)\",\n                \"text\": \"string\"\n              \x7d\n            \x7d\n          ]\n        \x7d\n\n        Memory Details:\n        "

def promptMid : String :=
  "\n\n        Patient Details:\n        "

def promptPost : String :=
  "\n\n        Requirements:\n        - Use the patient details and memory details to generate personalized steps and guidance.\n        - Include associated media URLs for each step where applicable.\n        - Follow a logical structure: introduction, main session, conclusion.\n        - Provide guidance points for each step in the `guide` field.\n        - Each step should include a script with:\n          - A calm, relaxing, and therapist-like tone.\n          - Simple and empathetic language to guide reflective thinking and encourage memories.\n        - Choose one consistent voice for all steps from the following options: alloy, echo, fable, onyx, nova, shimmer.\n        - Ensure the JSON format matches the provided structure.\n        - Provide the output as a valid JSON object without any extra formatting or code block markers.\n        "

/-- The prompt built by `_construct_therapy_outline_prompt`: the f-string
template with the memory and patient dump renderings interpolated.  The input
memory id is not interpolated anywhere in the template. -/
def construct_therapy_outline_prompt (input_data : InputData) : String :=
  promptPre ++ input_data.memory_details ++ promptMid
    ++ input_data.patient_details ++ promptPost

/-- The system message of the chat request, as built in
`_generate_therapy_outline`. -/
def systemMessage : ChatMessage :=
  ChatMessage.mk "system"
    [ContentPart.mk "text" "You are an AI assistant specializing in reminiscence therapy."]

/-- The user message of the chat request, carrying the constructed prompt. -/
def userMessage (prompt : String) : ChatMessage :=
  ChatMessage.mk "user" [ContentPart.mk "text" prompt]

/-- The chat request `_generate_therapy_outline` sends: model gpt-4o, one
system message, one user message, temperature 0.2. -/
def mkChatRequest (prompt : String) : ChatRequest :=
  ChatRequest.mk "gpt-4o" [systemMessage, userMessage prompt] (2 / 10 : Rat)

/-- The expression `response.choices[0].message.content`: the first choice
text, or an IndexError on an empty choice list. -/
def extractFirstChoiceText (resp : ChatResponse) : Except PyError String :=
  match resp.choices with
  | [] => .error (.indexError "list index out of range")
  | c :: _ => .ok c.message.content

/-- The static method `_parse_json_output`: `json.loads` with a
`JSONDecodeError` rewrapped as a `ValueError` that carries the underlying
parse failure in its message. -/
def parse_json_output (output : String) : Except PyError Json :=
  match Json.parse output with
  | .ok j => .ok j
  | .error msg => .error (.valueError ("Invalid JSON output from OpenAI: " ++ msg))

/-- Python subscription `value[key]` with a string key, as in
`outline_json["steps"]`: a dict lookup raising KeyError when absent, and a
TypeError on non-dict values. -/
def getItem (j : Json) (key : String) : Except PyError Json :=
  match j with
  | .obj fields =>
    match lookupDict fields key with
    | some v => .ok v
    | none => .error (.keyError key)
  | .str _ => .error (.typeError "string indices must be integers")
  | .arr _ => .error (.typeError "list indices must be integers or slices, not str")
  | .num _ => .error (.typeError "int object is not subscriptable")
  | .bool _ => .error (.typeError "bool object is not subscriptable")
  | .null => .error (.typeError "NoneType object is not subscriptable")

/-- Read a JSON value as a string, as a pydantic strict string field would. -/
def asStr : Json → Option String
  | .str s => some s
  | _ => none

/-- Read a JSON value as an integer, as a pydantic int field would. -/
def asInt : Json → Option Int
  | .num n => some n
  | _ => none

/-- Read a JSON value as a list of strings. -/
def asStrList : Json → Option (List String)
  | .arr xs => xs.mapM asStr
  | _ => none

/-- Modelled from the spec (section 3): decode the enumerated step category
tag of the `Step` model of `src/model`, which is not present under `src/`. -/
def stepTypeOfString : String → Option StepType
  | "INTRODUCTION" => some .INTRODUCTION
  | "NORMAL" => some .NORMAL
  | "CONCLUSION" => some .CONCLUSION
  | _ => none

/-- Modelled from the spec (section 3): validate a script mapping of the
`Script` model of `src/model`, which is not present under `src/` — a voice
from the enumerated set and a narration text. -/
def scriptFromJson (j : Json) : Option Script :=
  match j with
  | .obj fields =>
    match (lookupDict fields "voice").bind asStr with
    | none => none
    | some v =>
      if allowedVoices.contains v then
        match (lookupDict fields "text").bind asStr with
        | none => none
        | some t => some (Script.mk v t)
      else none
  | _ => none

/-- Modelled from the spec (section 3): field-for-field validation of a step
mapping against the `Step` model of `src/model`, which is not present under
`src/` — every field must be present with the specified type. -/
def stepFields (fields : List (String × Json)) : Option Step :=
  ((lookupDict fields "step").bind asInt).bind fun n =>
  ((lookupDict fields "description").bind asStr).bind fun d =>
  ((lookupDict fields "guide").bind asStrList).bind fun g =>
  (((lookupDict fields "type").bind asStr).bind stepTypeOfString).bind fun ty =>
  ((lookupDict fields "media_urls").bind asStrList).bind fun mu =>
  ((lookupDict fields "script").bind scriptFromJson).bind fun sc =>
  some (Step.mk n d g ty mu sc)

/-- Modelled from the spec (section 3): `Step(**step)` — pydantic validation
of one step mapping.  A non-mapping argument raises a TypeError; a mapping
with a missing or ill-typed field raises a pydantic validation error. -/
def stepFromJson (j : Json) : Except PyError Step :=
  match j with
  | .obj fields =>
    match stepFields fields with
    | some st => .ok st
    | none => .error (.stepValidationError "validation error for Step")
  | _ => .error (.typeError "argument after ** must be a mapping")

/-- Map `Step(**step)` over the entries of a JSON array, stopping at the
first failure, as the list comprehension does. -/
def stepsList : List Json → Except PyError (List Step)
  | [] => .ok []
  | x :: xs =>
    match stepFromJson x with
    | .error e => .error e
    | .ok st =>
      match stepsList xs with
      | .error e => .error e
      | .ok sts => .ok (st :: sts)

/-- The list comprehension `[Step(**step) for step in steps_value]`.
Iterating a non-empty string yields its characters and iterating a non-empty
dict yields its keys, so either feeds `Step(**...)` a non-mapping; non-iterable
values raise a TypeError at the loop itself. -/
def stepsFromJson : Json → Except PyError (List Step)
  | .arr xs => stepsList xs
  | .str s =>
    if s.isEmpty then .ok []
    else .error (.typeError "argument after ** must be a mapping")
  | .obj fields =>
    if fields.isEmpty then .ok []
    else .error (.typeError "argument after ** must be a mapping")
  | _ => .error (.typeError "object is not iterable")

/-- Construction of the `TherapyOutline` passed to the repository:
`outline_json["steps"]` is read and its entries are mapped through
`Step(**step)`; the identifiers come from the resolved memory and the input
memory id only. -/
def mkTherapyOutline (memory : Memory) (memory_id : String) (outline_json : Json) :
    Except PyError TherapyOutline :=
  match getItem outline_json "steps" with
  | .error e => .error e
  | .ok stepsJson =>
    match stepsFromJson stepsJson with
    | .error e => .error e
    | .ok steps => .ok (TherapyOutline.mk memory.patient_id memory_id steps)

/-- The method `get_therapy_outline_by_memory_id`: a pass-through to the
repository lookup with the same id. -/
def get_therapy_outline_by_memory_id (env : Env) (memory_id : String) :
    Except PyError TherapyOutline :=
  env.repo_get_therapy_outline_by_memory_id memory_id

/-- The method `generate_and_save_therapy_outline`, with its observable
effects recorded in a `Trace`.  Faithful to the source ordering: the
attribute access `memory.patient_id` happens before the `if not memory`
check, so a missing memory raises an AttributeError there and the
ValueError branch for a missing memory is unreachable. -/
def generate_and_save_therapy_outline (env : Env) (memory_id : String) :
    Except PyError String × Trace :=
  match env.get_memory_by_id memory_id with
  | .error e => (.error e, Trace.mk [] [])
  | .ok none => (.error (.attributeError "NoneType object has no attribute patient_id"), Trace.mk [] [])
  | .ok (some memory) =>
    match env.get_patient_by_id memory.patient_id with
    | .error e => (.error e, Trace.mk [] [])
    | .ok patient =>
      if ¬ memory.toBool then
        (.error (.valueError ("No memory found with ID: " ++ memory_id)), Trace.mk [] [])
      else
        let input_data := InputData.mk memory_id memory.dumpStr patient.dumpStr
        let prompt := construct_therapy_outline_prompt input_data
        let req := mkChatRequest prompt
        match env.chat_completions_create req with
        | .error e => (.error e, Trace.mk [req] [])
        | .ok resp =>
          match extractFirstChoiceText resp with
          | .error e => (.error e, Trace.mk [req] [])
          | .ok output =>
            match parse_json_output output with
            | .error e => (.error e, Trace.mk [req] [])
            | .ok outline_json =>
              match mkTherapyOutline memory memory_id outline_json with
              | .error e => (.error e, Trace.mk [req] [])
              | .ok therapy_outline =>
                match env.save_therapy_outline therapy_outline with
                | .error e => (.error e, Trace.mk [req] [therapy_outline])
                | .ok result => (.ok result, Trace.mk [req] [therapy_outline])

/-- An environment whose collaborators return fixed results, ignoring their
arguments. -/
def mkConstEnv (mem : Except PyError (Option Memory)) (pat : Except PyError Patient)
    (chat : Except PyError ChatResponse) (sav : Except PyError String)
    (repo : Except PyError TherapyOutline) : Env :=
  Env.mk (fun _ => mem) (fun _ => pat) (fun _ => chat) (fun _ => sav) (fun _ => repo)

/-- A chat response with a single choice carrying the given text. -/
def respOf (t : String) : ChatResponse :=
  ChatResponse.mk [ChatChoice.mk (ChatChoiceMessage.mk t)]

/-- A concrete memory record used by the concrete environments. -/
def mem1 : Memory := Memory.mk "p1" "memdump"

/-- A concrete patient record used by the concrete environments. -/
def pat1 : Patient := Patient.mk "patdump"

/-- A concrete previously saved outline, for the repository lookup. -/
def outline1 : TherapyOutline := TherapyOutline.mk "p1" "m1" []

/-- Environment in which the model answers with the literal text
`not json`. -/
def envNotJson : Env :=
  mkConstEnv (.ok (some mem1)) (.ok pat1) (.ok (respOf "not json"))
    (.ok "saved-id") (.ok outline1)

/-- The well-formed model response of spec testable property 4. -/
def goodJsonText : String :=
  "\x7b\"patient_id\":\"p1\",\"memory_id\":\"m1\",\"steps\":[\x7b\"step\":1,\"description\":\"d\",\"guide\":[\"g1\"],\"type\":\"INTRODUCTION\",\"media_urls\":[],\"script\":\x7b\"voice\":\"alloy\",\"text\":\"t\"\x7d\x7d]\x7d"

/-- Environment in which the model answers with `goodJsonText`. -/
def envGood : Env :=
  mkConstEnv (.ok (some mem1)) (.ok pat1) (.ok (respOf goodJsonText))
    (.ok "outline-id-1") (.ok outline1)

/-- Environment in which the model answers with valid JSON of the wrong
shape (an object without a steps key). -/
def envBadShape : Env :=
  mkConstEnv (.ok (some mem1)) (.ok pat1) (.ok (respOf "\x7b\"foo\": 1\x7d"))
    (.ok "saved-id") (.ok outline1)

/-- Environment in which the memory lookup returns nothing (Python None). -/
def envNullMemory : Env :=
  mkConstEnv (.ok none) (.ok pat1) (.ok (respOf goodJsonText))
    (.ok "saved-id") (.ok outline1)

/-- Environment in which the memory collaborator itself raises. -/
def envMemErr : Env :=
  mkConstEnv (.error (.collaboratorError "memory service down")) (.ok pat1)
    (.ok (respOf goodJsonText)) (.ok "saved-id") (.ok outline1)

/-- Substring check on character lists: does `p` occur contiguously in the
first argument? -/
def containsSubAux : List Char → List Char → Bool
  | [], p => p.isEmpty
  | c :: rest, p => p.isPrefixOf (c :: rest) || containsSubAux rest p

/-- Substring check on strings. -/
def strContainsSub (s pat : String) : Bool := containsSubAux s.data pat.data

/-- A single therapy step as parsed from the well-formed model response of
spec testable property 4. -/
def step1 : Step := Step.mk 1 "d" ["g1"] .INTRODUCTION [] (Script.mk "alloy" "t")

/-- The JSON value `goodJsonText` parses to. -/
def goodJsonVal : Json :=
  Json.obj [("patient_id", .str "p1"), ("memory_id", .str "m1"),
    ("steps", .arr [Json.obj [("step", .num 1), ("description", .str "d"),
      ("guide", .arr [.str "g1"]), ("type", .str "INTRODUCTION"),
      ("media_urls", .arr []),
      ("script", Json.obj [("voice", .str "alloy"), ("text", .str "t")])]])]

/-- The JSON value of a valid-JSON model response lacking a steps key. -/
def badShapeJsonVal : Json := Json.obj [("foo", Json.num 1)]

/-- A prompt input whose memory id does not occur in the payloads and whose
memory payload carries a markdown code fence. -/
def cexInputData : InputData := InputData.mk "MID-123456" "```" "patdump"

/-- The chat request issued by the concrete environments for memory id m1. -/
def req0 : ChatRequest :=
  mkChatRequest (construct_therapy_outline_prompt
    (InputData.mk "m1" mem1.dumpStr pat1.dumpStr))

/-- The response text of a model answer carrying top-level ids A. -/
def t1c : String := "\x7b\"patient_id\":\"A\",\"steps\":[]\x7d"

/-- The response text of a model answer carrying different top-level ids. -/
def t2c : String := "\x7b\"patient_id\":\"B\",\"memory_id\":\"zzz\",\"steps\":[]\x7d"

/-- The JSON value `t1c` parses to. -/
def j1c : Json := Json.obj [("patient_id", .str "A"), ("steps", .arr [])]

/-- The JSON value `t2c` parses to. -/
def j2c : Json := Json.obj [("patient_id", .str "B"), ("memory_id", .str "zzz"), ("steps", .arr [])]


theorem containsSubAux_iff (p s : List Char) : containsSubAux s p = true ↔ p <:+: s := by
  induction s with
  | nil => simp [containsSubAux, List.infix_nil]
  | cons c rest ih => simp [containsSubAux, List.infix_cons_iff, List.isPrefixOf_iff_prefix, ih]

theorem strContainsSub_iff (s pat : String) :
    strContainsSub s pat = true ↔ pat.data <:+: s.data :=
  containsSubAux_iff pat.data s.data

theorem mkTherapyOutline_ok (m : Memory) (mid : String) (j : Json) (o : TherapyOutline)
    (h : mkTherapyOutline m mid j = .ok o) :
    o.patient_id = m.patient_id ∧ o.memory_id = mid := by
  unfold mkTherapyOutline at h
  cases hg : getItem j "steps" with
  | error e => simp [hg] at h
  | ok sj =>
    simp only [hg] at h
    cases hs : stepsFromJson sj with
    | error e => simp [hs] at h
    | ok steps =>
      simp only [hs, Except.ok.injEq] at h
      subst h
      exact ⟨rfl, rfl⟩

theorem getItem_error_not_valueError (j : Json) (key : String) (e : PyError)
    (h : getItem j key = .error e) : e.isValueError = false := by
  cases j with
  | obj fields =>
    simp only [getItem] at h
    cases hl : lookupDict fields key with
    | some v => simp [hl] at h
    | none => simp only [hl, Except.error.injEq] at h; subst h; rfl
  | null => simp only [getItem, Except.error.injEq] at h; subst h; rfl
  | bool b => simp only [getItem, Except.error.injEq] at h; subst h; rfl
  | num n => simp only [getItem, Except.error.injEq] at h; subst h; rfl
  | str s => simp only [getItem, Except.error.injEq] at h; subst h; rfl
  | arr xs => simp only [getItem, Except.error.injEq] at h; subst h; rfl

theorem stepFromJson_error_not_valueError (j : Json) (e : PyError)
    (h : stepFromJson j = .error e) : e.isValueError = false := by
  cases j with
  | obj fields =>
    simp only [stepFromJson] at h
    cases hf : stepFields fields with
    | some st => simp [hf] at h
    | none => simp only [hf, Except.error.injEq] at h; subst h; rfl
  | null => simp only [stepFromJson, Except.error.injEq] at h; subst h; rfl
  | bool b => simp only [stepFromJson, Except.error.injEq] at h; subst h; rfl
  | num n => simp only [stepFromJson, Except.error.injEq] at h; subst h; rfl
  | str s => simp only [stepFromJson, Except.error.injEq] at h; subst h; rfl
  | arr xs => simp only [stepFromJson, Except.error.injEq] at h; subst h; rfl

theorem stepsList_error_not_valueError (xs : List Json) (e : PyError)
    (h : stepsList xs = .error e) : e.isValueError = false := by
  induction xs with
  | nil => simp [stepsList] at h
  | cons x xs ih =>
    simp only [stepsList] at h
    cases hx : stepFromJson x with
    | error e2 =>
      simp only [hx, Except.error.injEq] at h
      subst h
      exact stepFromJson_error_not_valueError x e2 hx
    | ok st =>
      simp only [hx] at h
      cases hs : stepsList xs with
      | error e2 =>
        simp only [hs, Except.error.injEq] at h
        subst h
        exact ih hs
      | ok sts => simp [hs] at h

theorem stepsFromJson_error_not_valueError (j : Json) (e : PyError)
    (h : stepsFromJson j = .error e) : e.isValueError = false := by
  cases j with
  | arr xs => exact stepsList_error_not_valueError xs e h
  | str s =>
    simp only [stepsFromJson] at h
    by_cases hs : s.isEmpty = true <;> simp [hs] at h
    subst h; rfl
  | obj fields =>
    simp only [stepsFromJson] at h
    by_cases hf : fields.isEmpty = true <;> simp [hf] at h
    subst h; rfl
  | null => simp only [stepsFromJson, Except.error.injEq] at h; subst h; rfl
  | bool b => simp only [stepsFromJson, Except.error.injEq] at h; subst h; rfl
  | num n => simp only [stepsFromJson, Except.error.injEq] at h; subst h; rfl

theorem mkTherapyOutline_error_not_valueError (m : Memory) (mid : String) (j : Json)
    (e : PyError) (h : mkTherapyOutline m mid j = .error e) : e.isValueError = false := by
  unfold mkTherapyOutline at h
  cases hg : getItem j "steps" with
  | error e2 =>
    simp only [hg, Except.error.injEq] at h
    subst h
    exact getItem_error_not_valueError j "steps" e2 hg
  | ok sj =>
    simp only [hg] at h
    cases hs : stepsFromJson sj with
    | error e2 =>
      simp only [hs, Except.error.injEq] at h
      subst h
      exact stepsFromJson_error_not_valueError sj e2 hs
    | ok steps => simp [hs] at h

theorem modelCalls_shape (env : Env) (memory_id : String) (req : ChatRequest)
    (hreq : req ∈ (generate_and_save_therapy_outline env memory_id).2.modelCalls) :
    ∃ m p, env.get_memory_by_id memory_id = .ok (some m)
      ∧ env.get_patient_by_id m.patient_id = .ok p
      ∧ req = mkChatRequest (construct_therapy_outline_prompt
          (InputData.mk memory_id m.dumpStr p.dumpStr)) := by
  unfold generate_and_save_therapy_outline at hreq
  cases hm : env.get_memory_by_id memory_id with
  | error e => simp [hm] at hreq
  | ok mo =>
    cases mo with
    | none => simp [hm] at hreq
    | some m =>
      cases hp : env.get_patient_by_id m.patient_id with
      | error e => simp [hm, hp] at hreq
      | ok p =>
        simp only [hm, hp] at hreq
        simp [Memory.toBool] at hreq
        cases hc : env.chat_completions_create (mkChatRequest
            (construct_therapy_outline_prompt (InputData.mk memory_id m.dumpStr p.dumpStr))) with
        | error e =>
          simp [hc] at hreq
          exact ⟨m, p, rfl, hp, hreq⟩
        | ok resp =>
          simp only [hc] at hreq
          cases hx : extractFirstChoiceText resp with
          | error e =>
            simp [hx] at hreq
            exact ⟨m, p, rfl, hp, hreq⟩
          | ok output =>
            simp only [hx] at hreq
            cases hj : parse_json_output output with
            | error e =>
              simp [hj] at hreq
              exact ⟨m, p, rfl, hp, hreq⟩
            | ok oj =>
              simp only [hj] at hreq
              cases hk : mkTherapyOutline m memory_id oj with
              | error e =>
                simp [hk] at hreq
                exact ⟨m, p, rfl, hp, hreq⟩
              | ok t =>
                simp only [hk] at hreq
                cases hs : env.save_therapy_outline t with
                | error e =>
                  simp [hs] at hreq
                  exact ⟨m, p, rfl, hp, hreq⟩
                | ok r =>
                  simp [hs] at hreq
                  exact ⟨m, p, rfl, hp, hreq⟩


theorem generate_unfold_ok (env : Env) (memory_id : String) (m : Memory) (p : Patient)
    (hm : env.get_memory_by_id memory_id = .ok (some m))
    (hp : env.get_patient_by_id m.patient_id = .ok p) :
    generate_and_save_therapy_outline env memory_id =
      (let req := mkChatRequest (construct_therapy_outline_prompt
          (InputData.mk memory_id m.dumpStr p.dumpStr));
       match env.chat_completions_create req with
       | .error e => (.error e, Trace.mk [req] [])
       | .ok resp =>
         match extractFirstChoiceText resp with
         | .error e => (.error e, Trace.mk [req] [])
         | .ok output =>
           match parse_json_output output with
           | .error e => (.error e, Trace.mk [req] [])
           | .ok outline_json =>
             match mkTherapyOutline m memory_id outline_json with
             | .error e => (.error e, Trace.mk [req] [])
             | .ok t =>
               match env.save_therapy_outline t with
               | .error e => (.error e, Trace.mk [req] [t])
               | .ok result => (.ok result, Trace.mk [req] [t])) := by
  simp [generate_and_save_therapy_outline, hm, hp, Memory.toBool]

theorem modelCalls_length_le_one (env : Env) (memory_id : String) :
    (generate_and_save_therapy_outline env memory_id).2.modelCalls.length ≤ 1 := by
  cases hm : env.get_memory_by_id memory_id with
  | error e => simp [generate_and_save_therapy_outline, hm]
  | ok mo =>
    cases mo with
    | none => simp [generate_and_save_therapy_outline, hm]
    | some m =>
      cases hp : env.get_patient_by_id m.patient_id with
      | error e => simp [generate_and_save_therapy_outline, hm, hp]
      | ok p =>
        rw [generate_unfold_ok env memory_id m p hm hp]
        cases hc : env.chat_completions_create (mkChatRequest
            (construct_therapy_outline_prompt (InputData.mk memory_id m.dumpStr p.dumpStr))) with
        | error e => simp [hc]
        | ok resp =>
          simp only [hc]
          cases hx : extractFirstChoiceText resp with
          | error e => simp [hx]
          | ok output =>
            simp only [hx]
            cases hj : parse_json_output output with
            | error e => simp [hj]
            | ok oj =>
              simp only [hj]
              cases hk : mkTherapyOutline m memory_id oj with
              | error e => simp [hk]
              | ok t =>
                simp only [hk]
                cases hs : env.save_therapy_outline t <;> simp [hs]

set_option maxRecDepth 8000

/-- C1: for every input memory id, if the model response text is not valid
JSON, `generate_and_save_therapy_outline` fails with the ValueError wrapping
the underlying JSON parse failure, and the repository save operation is never
invoked in that run. -/
theorem C1_invalid_json_not_persisted
    (env : Env) (memory_id : String) (m : Memory) (p : Patient)
    (resp : ChatResponse) (c : ChatChoice) (cs : List ChatChoice) (msg : String)
    (hm : env.get_memory_by_id memory_id = .ok (some m))
    (hp : env.get_patient_by_id m.patient_id = .ok p)
    (hc : env.chat_completions_create
        (mkChatRequest (construct_therapy_outline_prompt
          (InputData.mk memory_id m.dumpStr p.dumpStr))) = .ok resp)
    (hch : resp.choices = c :: cs)
    (hparse : Json.parse c.message.content = .error msg) :
    (generate_and_save_therapy_outline env memory_id).1
      = .error (.valueError ("Invalid JSON output from OpenAI: " ++ msg))
    ∧ (generate_and_save_therapy_outline env memory_id).2.saves = [] := by
  simp [generate_and_save_therapy_outline, hm, hp, hc, hch, Memory.toBool,
    extractFirstChoiceText, parse_json_output, hparse]

theorem C1_witness :
    (generate_and_save_therapy_outline envNotJson "m1").1
      = .error (.valueError ("Invalid JSON output from OpenAI: " ++ "Expecting value"))
    ∧ (generate_and_save_therapy_outline envNotJson "m1").2.saves = [] :=
  C1_invalid_json_not_persisted envNotJson "m1" mem1 pat1 (respOf "not json")
    (ChatChoice.mk (ChatChoiceMessage.mk "not json")) [] "Expecting value"
    rfl rfl rfl rfl (by rfl)

/-- C2: the claim says a missing memory yields a ValueError reading no memory
found before any model call.  The code instead dereferences
`memory.patient_id` before the `if not memory` check, so a missing memory
raises an AttributeError (the ValueError branch is unreachable); no model
call is made.  This theorem records the actual behavior at such an input. -/
theorem C2_missing_memory_attribute_error :
    (generate_and_save_therapy_outline envNullMemory "m1").1
      = .error (.attributeError "NoneType object has no attribute patient_id")
    ∧ (generate_and_save_therapy_outline envNullMemory "m1").2.modelCalls = [] :=
  ⟨rfl, rfl⟩

/-- C3: when the memory resolves and the model response yields a well-formed
outline, the outline handed to the repository save operation has `memory_id`
equal to the input id and `patient_id` equal to the patient id of the
resolved memory. -/
theorem C3_outline_ids_from_memory_and_input
    (env : Env) (memory_id : String) (m : Memory) (p : Patient)
    (resp : ChatResponse) (c : ChatChoice) (cs : List ChatChoice)
    (j : Json) (o : TherapyOutline)
    (hm : env.get_memory_by_id memory_id = .ok (some m))
    (hp : env.get_patient_by_id m.patient_id = .ok p)
    (hc : env.chat_completions_create
        (mkChatRequest (construct_therapy_outline_prompt
          (InputData.mk memory_id m.dumpStr p.dumpStr))) = .ok resp)
    (hch : resp.choices = c :: cs)
    (hparse : Json.parse c.message.content = .ok j)
    (hmk : mkTherapyOutline m memory_id j = .ok o) :
    (generate_and_save_therapy_outline env memory_id).2.saves = [o]
    ∧ o.memory_id = memory_id ∧ o.patient_id = m.patient_id := by
  refine ⟨?_, (mkTherapyOutline_ok m memory_id j o hmk).2,
    (mkTherapyOutline_ok m memory_id j o hmk).1⟩
  simp [generate_and_save_therapy_outline, hm, hp, hc, hch, Memory.toBool,
    extractFirstChoiceText, parse_json_output, hparse, hmk]
  cases envs : env.save_therapy_outline o <;> simp

theorem C3_witness :
    (generate_and_save_therapy_outline envGood "m1").2.saves
        = [TherapyOutline.mk "p1" "m1" [step1]]
    ∧ (TherapyOutline.mk "p1" "m1" [step1]).memory_id = "m1"
    ∧ (TherapyOutline.mk "p1" "m1" [step1]).patient_id = mem1.patient_id :=
  C3_outline_ids_from_memory_and_input envGood "m1" mem1 pat1 (respOf goodJsonText)
    (ChatChoice.mk (ChatChoiceMessage.mk goodJsonText)) [] goodJsonVal
    (TherapyOutline.mk "p1" "m1" [step1]) rfl rfl rfl rfl (by rfl) (by rfl)

/-- C4, counterexample: at the concrete prompt input `cexInputData` the claim
fails — the prompt does not contain the literal input memory id (the template
never interpolates it), and it does contain a markdown code fence (carried in
by the memory payload). -/
theorem C4_counterexample :
    ¬ (("MID-123456".data <:+: (construct_therapy_outline_prompt cexInputData).data)
        ∧ ¬ ("```".data <:+: (construct_therapy_outline_prompt cexInputData).data)) := by
  rw [← strContainsSub_iff, ← strContainsSub_iff]
  decide

/-- C4, amended: the prompt is exactly a fixed prefix, the serialized memory
payload, a fixed middle, the serialized patient payload and a fixed suffix;
hence the payloads occur as substrings, and the three fixed template segments
contain no markdown code-fence markers.  The input memory id is not
interpolated: it occurs only insofar as it occurs inside a payload. -/
theorem C4_amended_prompt_decomposition (d : InputData) :
    construct_therapy_outline_prompt d
      = promptPre ++ d.memory_details ++ promptMid ++ d.patient_details ++ promptPost
    ∧ (d.memory_details.data <:+: (construct_therapy_outline_prompt d).data)
    ∧ (d.patient_details.data <:+: (construct_therapy_outline_prompt d).data)
    ∧ ¬ ("```".data <:+: promptPre.data)
    ∧ ¬ ("```".data <:+: promptMid.data)
    ∧ ¬ ("```".data <:+: promptPost.data) := by
  refine ⟨rfl, ?_, ?_, ?_, ?_, ?_⟩
  · show d.memory_details.data
      <:+: (promptPre ++ d.memory_details ++ promptMid ++ d.patient_details ++ promptPost).data
    simp only [String.data_append]
    exact ⟨promptPre.data,
      promptMid.data ++ d.patient_details.data ++ promptPost.data, by simp⟩
  · show d.patient_details.data
      <:+: (promptPre ++ d.memory_details ++ promptMid ++ d.patient_details ++ promptPost).data
    simp only [String.data_append]
    exact ⟨promptPre.data ++ d.memory_details.data ++ promptMid.data,
      promptPost.data, by simp⟩
  · exact fun h => absurd ((strContainsSub_iff promptPre "```").mpr h) (by decide)
  · exact fun h => absurd ((strContainsSub_iff promptMid "```").mpr h) (by decide)
  · exact fun h => absurd ((strContainsSub_iff promptPost "```").mpr h) (by decide)

/-- C5: every chat request a run issues has model gpt-4o, temperature 0.2 and
exactly the two messages — one system message framing the assistant as a
reminiscence-therapy specialist and one user message carrying the constructed
prompt; and the raw output taken for parsing is the text content of the first
completion choice. -/
theorem C5_single_system_user_message_and_temperature (env : Env) (memory_id : String) :
    (∀ req ∈ (generate_and_save_therapy_outline env memory_id).2.modelCalls,
      req.model = "gpt-4o"
      ∧ req.temperature = (2 / 10 : Rat)
      ∧ (∃ m p, env.get_memory_by_id memory_id = .ok (some m)
          ∧ env.get_patient_by_id m.patient_id = .ok p
          ∧ req.messages = [systemMessage, userMessage (construct_therapy_outline_prompt
              (InputData.mk memory_id m.dumpStr p.dumpStr))]))
    ∧ (∀ (resp : ChatResponse) (c : ChatChoice) (cs : List ChatChoice),
        resp.choices = c :: cs →
          extractFirstChoiceText resp = .ok c.message.content) := by
  constructor
  · intro req hreq
    obtain ⟨m, p, hm, hp, hreqeq⟩ := modelCalls_shape env memory_id req hreq
    subst hreqeq
    exact ⟨rfl, rfl, m, p, hm, hp, rfl⟩
  · intro resp c cs h
    simp [extractFirstChoiceText, h]

theorem C5_witness :
    (req0.model = "gpt-4o"
      ∧ req0.temperature = (2 / 10 : Rat)
      ∧ (∃ m p, envNotJson.get_memory_by_id "m1" = .ok (some m)
          ∧ envNotJson.get_patient_by_id m.patient_id = .ok p
          ∧ req0.messages = [systemMessage, userMessage (construct_therapy_outline_prompt
              (InputData.mk "m1" m.dumpStr p.dumpStr))]))
    ∧ extractFirstChoiceText (respOf "not json") = .ok "not json" :=
  ⟨(C5_single_system_user_message_and_temperature envNotJson "m1").1 req0
      (List.Mem.head _),
   (C5_single_system_user_message_and_temperature envNotJson "m1").2
      (respOf "not json") (ChatChoice.mk (ChatChoiceMessage.mk "not json")) [] rfl⟩

/-- C6: on the exact well-formed model response of spec testable property 4,
the outline handed to the repository has exactly one step, that step has the
INTRODUCTION category and its script voice is alloy. -/
theorem C6_good_response_single_intro_alloy_step :
    ∃ o, (generate_and_save_therapy_outline envGood "m1").2.saves = [o]
      ∧ o.steps.length = 1
      ∧ o.steps.map Step.type = [StepType.INTRODUCTION]
      ∧ o.steps.map (fun s => s.script.voice) = ["alloy"] :=
  ⟨TherapyOutline.mk "p1" "m1" [step1], by rfl, rfl, rfl, rfl⟩

/-- C7: `get_therapy_outline_by_memory_id` is a pure pass-through — whenever
the repository holds an outline for the id, the operation returns exactly
that outline. -/
theorem C7_get_outline_pass_through (env : Env) (memory_id : String) (o : TherapyOutline)
    (h : env.repo_get_therapy_outline_by_memory_id memory_id = .ok o) :
    get_therapy_outline_by_memory_id env memory_id = .ok o := h

theorem C7_witness : get_therapy_outline_by_memory_id envGood "m1" = .ok outline1 :=
  C7_get_outline_pass_through envGood "m1" outline1 rfl

/-- C8: in every run, the chat-completion API is called at most once, and a
failure raised by the memory collaborator, patient collaborator, chat client
or repository save propagates to the caller verbatim. -/
theorem C8_single_attempt_and_error_propagation (env : Env) (memory_id : String) :
    (generate_and_save_therapy_outline env memory_id).2.modelCalls.length ≤ 1
    ∧ (∀ e, env.get_memory_by_id memory_id = .error e →
        (generate_and_save_therapy_outline env memory_id).1 = .error e)
    ∧ (∀ m e, env.get_memory_by_id memory_id = .ok (some m) →
        env.get_patient_by_id m.patient_id = .error e →
        (generate_and_save_therapy_outline env memory_id).1 = .error e)
    ∧ (∀ m p e, env.get_memory_by_id memory_id = .ok (some m) →
        env.get_patient_by_id m.patient_id = .ok p →
        env.chat_completions_create (mkChatRequest (construct_therapy_outline_prompt
          (InputData.mk memory_id m.dumpStr p.dumpStr))) = .error e →
        (generate_and_save_therapy_outline env memory_id).1 = .error e)
    ∧ (∀ m p resp c cs j o e, env.get_memory_by_id memory_id = .ok (some m) →
        env.get_patient_by_id m.patient_id = .ok p →
        env.chat_completions_create (mkChatRequest (construct_therapy_outline_prompt
          (InputData.mk memory_id m.dumpStr p.dumpStr))) = .ok resp →
        resp.choices = c :: cs →
        Json.parse c.message.content = .ok j →
        mkTherapyOutline m memory_id j = .ok o →
        env.save_therapy_outline o = .error e →
        (generate_and_save_therapy_outline env memory_id).1 = .error e) := by
  refine ⟨modelCalls_length_le_one env memory_id, ?_, ?_, ?_, ?_⟩
  · intro e hm
    simp [generate_and_save_therapy_outline, hm]
  · intro m e hm hp
    simp [generate_and_save_therapy_outline, hm, hp]
  · intro m p e hm hp hc
    rw [generate_unfold_ok env memory_id m p hm hp]
    simp [hc]
  · intro m p resp c cs j o e hm hp hc hch hj ho hs
    rw [generate_unfold_ok env memory_id m p hm hp]
    simp [hc, extractFirstChoiceText, hch, parse_json_output, hj, ho, hs]

theorem C8_witness :
    (generate_and_save_therapy_outline envMemErr "m1").2.modelCalls.length ≤ 1
    ∧ (generate_and_save_therapy_outline envMemErr "m1").1
        = .error (.collaboratorError "memory service down") :=
  ⟨(C8_single_attempt_and_error_propagation envMemErr "m1").1,
   (C8_single_attempt_and_error_propagation envMemErr "m1").2.1
     (.collaboratorError "memory service down") rfl⟩

/-- C9: when the model response is valid JSON of the wrong shape, the run
fails with the structural error, which is not a ValueError (so not the
JSON-parse wrap), and nothing is handed to the repository save operation. -/
theorem C9_shape_error_unwrapped_not_persisted
    (env : Env) (memory_id : String) (m : Memory) (p : Patient)
    (resp : ChatResponse) (c : ChatChoice) (cs : List ChatChoice)
    (j : Json) (e : PyError)
    (hm : env.get_memory_by_id memory_id = .ok (some m))
    (hp : env.get_patient_by_id m.patient_id = .ok p)
    (hc : env.chat_completions_create
        (mkChatRequest (construct_therapy_outline_prompt
          (InputData.mk memory_id m.dumpStr p.dumpStr))) = .ok resp)
    (hch : resp.choices = c :: cs)
    (hparse : Json.parse c.message.content = .ok j)
    (hmk : mkTherapyOutline m memory_id j = .error e) :
    (generate_and_save_therapy_outline env memory_id).1 = .error e
    ∧ e.isValueError = false
    ∧ (generate_and_save_therapy_outline env memory_id).2.saves = [] := by
  refine ⟨?_, mkTherapyOutline_error_not_valueError m memory_id j e hmk, ?_⟩ <;>
    (rw [generate_unfold_ok env memory_id m p hm hp];
     simp [hc, extractFirstChoiceText, hch, parse_json_output, hparse, hmk])

theorem C9_witness :
    (generate_and_save_therapy_outline envBadShape "m1").1 = .error (.keyError "steps")
    ∧ (PyError.keyError "steps").isValueError = false
    ∧ (generate_and_save_therapy_outline envBadShape "m1").2.saves = [] :=
  C9_shape_error_unwrapped_not_persisted envBadShape "m1" mem1 pat1
    (respOf "\x7b\"foo\": 1\x7d") (ChatChoice.mk (ChatChoiceMessage.mk "\x7b\"foo\": 1\x7d")) []
    badShapeJsonVal (.keyError "steps") rfl rfl rfl rfl (by rfl) (by rfl)

/-- C10: the persisted identifiers do not depend on the top-level patient and
memory id fields of the model response — two runs whose parsed responses
agree on the steps value produce identical results and traces, whatever the
remaining response fields are. -/
theorem C10_outline_independent_of_response_ids
    (m : Memory) (p : Patient) (memory_id sid : String)
    (repo : Except PyError TherapyOutline)
    (t1 t2 : String) (j1 j2 : Json)
    (h1 : Json.parse t1 = .ok j1) (h2 : Json.parse t2 = .ok j2)
    (hsteps : getItem j1 "steps" = getItem j2 "steps") :
    generate_and_save_therapy_outline
        (mkConstEnv (.ok (some m)) (.ok p) (.ok (respOf t1)) (.ok sid) repo) memory_id
      = generate_and_save_therapy_outline
        (mkConstEnv (.ok (some m)) (.ok p) (.ok (respOf t2)) (.ok sid) repo) memory_id := by
  rw [generate_unfold_ok _ memory_id m p rfl rfl, generate_unfold_ok _ memory_id m p rfl rfl]
  simp [mkConstEnv, respOf, extractFirstChoiceText, parse_json_output, h1, h2,
    mkTherapyOutline, hsteps]

theorem C10_witness :
    generate_and_save_therapy_outline
        (mkConstEnv (.ok (some mem1)) (.ok pat1) (.ok (respOf t1c)) (.ok "sid") (.ok outline1)) "m1"
      = generate_and_save_therapy_outline
        (mkConstEnv (.ok (some mem1)) (.ok pat1) (.ok (respOf t2c)) (.ok "sid") (.ok outline1)) "m1" :=
  C10_outline_independent_of_response_ids mem1 pat1 "m1" "sid" (.ok outline1)
    t1c t2c j1c j2c (by rfl) (by rfl) (by rfl)
